import Mathlib

/-!
Shallow embedding of `src/lambda/agent_handler.py`: a request dispatcher
(`handler`) with three paths (event-sourced S3 analysis, direct prompt
analysis, default/status), together with the string helpers the handler
uses (Python `split('.')[-1]`, `lower()`, slicing, `replace`, strftime).
External collaborators (S3 get/put, the Strands agent, the two clocks) are
modelled as oracle outcomes supplied per invocation; the object-store and
agent interactions the code performs are recorded in an action trace.
-/

namespace AgentHandler

/-- Embedding of Python's `str.split(sep)` for a one-character separator,
over the character list of the string. -/
def splitOnChar (sep : Char) : List Char → List (List Char)
  | [] => [[]]
  | c :: cs =>
    match splitOnChar sep cs with
    | [] => [[c]]
    | r :: rs => if c = sep then [] :: r :: rs else (c :: r) :: rs

/-- Specification-side description: the portion of the list strictly after
the last occurrence of `sep` (the whole list if `sep` does not occur). -/
def afterLastSep (sep : Char) : List Char → List Char
  | [] => []
  | c :: cs =>
    if sep ∈ cs then afterLastSep sep cs
    else if c = sep then cs
    else c :: cs

/-- Embedding of `'<c>' in s` for a single-character Python membership test. -/
def hasChar (c : Char) (s : String) : Bool := s.data.contains c

/-- Embedding of Python `str.lower()` (character-wise lowering). -/
def pyLower (s : String) : String := String.mk (s.data.map Char.toLower)

/-- Embedding of `s.replace(a, b)` for one-character pattern and
replacement, as used in `object_key.replace('/', '_')`. -/
def pyReplaceChar (a b : Char) (s : String) : String :=
  String.mk (s.data.map (fun c => if c = a then b else c))

/-- Embedding of line 160 of the handler:
`object_key.split('.')[-1].lower() if '.' in object_key else 'unknown'`. -/
def fileTypeOf (object_key : String) : String :=
  if hasChar '.' object_key then
    pyLower (String.mk ((splitOnChar '.' object_key.data).getLastD []))
  else "unknown"

/-- Embedding of line 245 of the handler:
`analysis_result[:500] + "..." if len(analysis_result) > 500 else analysis_result`. -/
def previewOf (analysis_result : String) : String :=
  if analysis_result.length > 500 then
    String.mk (analysis_result.data.take 500) ++ "..."
  else analysis_result

/-- Zero-padded two-digit field of `strftime`. -/
def pad2 (n : Nat) : String := if n < 10 then "0" ++ toString n else toString n

/-- Zero-padded four-digit year field of `strftime`. -/
def pad4 (n : Nat) : String :=
  if n < 10 then "000" ++ toString n
  else if n < 100 then "00" ++ toString n
  else if n < 1000 then "0" ++ toString n
  else toString n

/-- A wall-clock instant as `datetime.now()` exposes it. -/
structure PyDateTime where
  year : Nat
  month : Nat
  day : Nat
  hour : Nat
  minute : Nat
  second : Nat
deriving DecidableEq

/-- Embedding of `datetime.now().strftime("%Y%m%d_%H%M%S")`. -/
def strftimeYmdHms (t : PyDateTime) : String :=
  pad4 t.year ++ pad2 t.month ++ pad2 t.day ++ "_" ++
    pad2 t.hour ++ pad2 t.minute ++ pad2 t.second

/-- Embedding of `round(x, 3)` on the elapsed-seconds value, over exact
rationals. -/
def round3 (q : ℚ) : ℚ := (round (q * 1000) : ℤ) / 1000

/-- The Lambda context object; only `aws_request_id` is consulted. -/
structure Ctx where
  aws_request_id : String
deriving DecidableEq

/-- Embedding of `context.aws_request_id if context else "unknown"`. -/
def requestIdOf : Option Ctx → String
  | some c => c.aws_request_id
  | none => "unknown"

/-- The incoming event dict. Only these five keys are ever consulted, each
via `in` / `event.get`, so the dict is embedded as five optional fields. -/
structure Event where
  source : Option String
  bucket : Option String
  key : Option String
  outputBucket : Option String
  prompt : Option String
deriving DecidableEq

/-- Python truthiness of an optional string: `not x` is true for a missing
key (`None`) and for the empty string. -/
def falsy : Option String → Bool
  | none => true
  | some s => s == ""

/-- One externally observable collaborator interaction performed by the
handler: an S3 `get_object`, an agent invocation, or an S3 `put_object`. -/
inductive Action where
  | fetch (bucket key : String)
  | agentCall (prompt : String)
  | write (bucket key body contentType : String)
      (metadata : List (String × String))
deriving DecidableEq

/-- Whether an action is an object-store write (`put_object`). -/
def Action.isWrite : Action → Bool
  | .write .. => true
  | _ => false

/-- Whether an action touches the object store at all. -/
def Action.isStore : Action → Bool
  | .fetch .. => true
  | .write .. => true
  | _ => false

/-- Result discriminator of an `Except`-modelled collaborator call. -/
def isErr {α : Type} : Except String α → Bool
  | .error _ => true
  | .ok _ => false

/-- Outcomes of the external collaborators for one invocation: the two
clock readings (`time.time()` on entry and at envelope construction),
`datetime.now()`, and the results the object store and the agent would
deliver if called. -/
structure Oracles where
  startTime : ℚ
  endTime : ℚ
  now : PyDateTime
  fetchResult : Except String (String × Nat)
  agentResult : Except String String
  writeResult : Except String Unit

/-- The `input` sub-dict of the event-sourced success response. -/
structure S3Input where
  bucket : String
  key : String
  file_size : Nat
  file_type : String
deriving DecidableEq

/-- The `output` sub-dict of the event-sourced success response. -/
structure S3Output where
  bucket : Option String
  key : Option String
  analysis_length : Nat
deriving DecidableEq

/-- The response dict. Every path returns a subset of these keys; a key a
given path does not set is `none`. -/
structure Envelope where
  status : String
  message : String
  request_id : Option String := none
  processing_time_seconds : Option ℚ := none
  version : Option String := none
  analysis : Option String := none
  input_prompt : Option String := none
  input : Option S3Input := none
  output : Option S3Output := none
  analysis_preview : Option String := none
deriving DecidableEq

/-- Embedding of the `analysis_prompt` f-string (lines 163-179). -/
def buildAnalysisPrompt (file_extension object_key : String) (file_size : Nat)
    (file_content : String) : String :=
  "\n        Analyze this " ++ file_extension ++ " code file: " ++ object_key ++
  "\n        \n        File size: " ++ toString file_size ++ " bytes" ++
  "\n        \n        Code content:\n        ```" ++ file_extension ++
  "\n        " ++ file_content ++ "\n        ```" ++
  "\n        \n        Please provide a comprehensive analysis including:" ++
  "\n        1. Code quality assessment" ++
  "\n        2. Security vulnerabilities" ++
  "\n        3. Performance considerations" ++
  "\n        4. Best practices recommendations" ++
  "\n        5. Specific improvements with code examples\n        "

/-- Embedding of `handle_prompt_analysis` (lines 77-122). Any exception
from agent construction or the agent call is caught and mapped to the
`"Analysis failed: "` error envelope; both envelopes carry `request_id`. -/
def handle_prompt_analysis (event : Event) (context : Option Ctx)
    (start_time : ℚ) (o : Oracles) : Envelope × List Action :=
  let request_id := requestIdOf context
  let prompt := event.prompt.getD ""
  match o.agentResult with
  | .ok analysis_result =>
      let processing_time := o.endTime - start_time
      ({ status := "success"
         message := "Code analysis completed"
         request_id := some request_id
         analysis := some analysis_result
         processing_time_seconds := some (round3 processing_time)
         input_prompt := some prompt },
       [Action.agentCall prompt])
  | .error e =>
      ({ status := "error"
         message := "Analysis failed: " ++ e
         request_id := some request_id },
       [Action.agentCall prompt])

/-- Embedding of `handle_s3_event` (lines 124-257). The validation-failure
and fetch-failure envelopes carry only `status` and `message` (lines 140
and 157); a `put_object` failure is logged and otherwise ignored, so
`o.writeResult` influences nothing observable. -/
def handle_s3_event (event : Event) (context : Option Ctx)
    (start_time : ℚ) (o : Oracles) : Envelope × List Action :=
  let request_id := requestIdOf context
  let bucket_name := event.bucket
  let object_key := event.key
  let output_bucket := event.outputBucket
  if falsy bucket_name || falsy object_key then
    ({ status := "error"
       message := "Missing bucket name or object key in S3 event" }, [])
  else
    let bn := bucket_name.getD ""
    let key := object_key.getD ""
    match o.fetchResult with
    | .error e =>
        ({ status := "error"
           message := "Failed to read file from S3: " ++ e },
         [Action.fetch bn key])
    | .ok (file_content, file_size) =>
        let file_extension := fileTypeOf key
        let analysis_prompt :=
          buildAnalysisPrompt file_extension key file_size file_content
        match o.agentResult with
        | .error e =>
            ({ status := "error"
               message := "S3 analysis failed: " ++ e
               request_id := some request_id },
             [Action.fetch bn key, Action.agentCall analysis_prompt])
        | .ok analysis_result =>
            let timestamp := strftimeYmdHms o.now
            let output_key := "analysis/" ++ pyReplaceChar '/' '_' key ++
              "_" ++ timestamp ++ "_analysis.md"
            let writes :=
              if falsy output_bucket then []
              else [Action.write (output_bucket.getD "") output_key
                analysis_result "text/markdown"
                [("source-bucket", bn), ("source-key", key),
                 ("analysis-timestamp", timestamp),
                 ("file-type", file_extension),
                 ("request-id", request_id)]]
            let processing_time := o.endTime - start_time
            ({ status := "success"
               message := "S3 code analysis completed"
               request_id := some request_id
               input := some ⟨bn, key, file_size, file_extension⟩
               output := some ⟨output_bucket,
                 if falsy output_bucket then none else some output_key,
                 analysis_result.length⟩
               processing_time_seconds := some (round3 processing_time)
               analysis_preview := some (previewOf analysis_result) },
             [Action.fetch bn key, Action.agentCall analysis_prompt] ++ writes)

/-- Embedding of the dispatcher `handler` (lines 33-75): route on the
event-source marker, then on presence of the `prompt` key, else return the
static default envelope. -/
def handler (event : Event) (context : Option Ctx) (o : Oracles) :
    Envelope × List Action :=
  let start_time := o.startTime
  let request_id := requestIdOf context
  if event.source == some "eventbridge" then
    handle_s3_event event context start_time o
  else if event.prompt.isSome then
    handle_prompt_analysis event context start_time o
  else
    ({ status := "success"
       message := "Code Analysis Strands Agent invoked"
       request_id := some request_id
       processing_time_seconds := some (round3 (o.endTime - start_time))
       version := some "1.0.0-strands" }, [])

/-! ### Concrete fixtures used by witnesses and counterexamples -/

/-- A concrete Lambda context. -/
def sampleCtx : Option Ctx := some ⟨"req-1"⟩

/-- Collaborator outcomes for a fully successful run. -/
def sampleOracle : Oracles :=
  ⟨0, 2, ⟨2025, 1, 2, 3, 4, 5⟩, .ok ("print(1)", 9), .ok "Looks fine.", .ok ()⟩

/-- Collaborator outcomes where the agent call fails. -/
def oracleAgentFail : Oracles :=
  ⟨0, 2, ⟨2025, 1, 2, 3, 4, 5⟩, .ok ("print(1)", 9), .error "quota", .ok ()⟩

/-- Collaborator outcomes where the object-store write fails. -/
def oracleWriteFail : Oracles :=
  ⟨0, 2, ⟨2025, 1, 2, 3, 4, 5⟩, .ok ("print(1)", 9), .ok "Looks fine.",
    .error "denied"⟩

/-- An event-sourced request with `key` missing. -/
def evMissingKey : Event := ⟨some "eventbridge", some "src", none, none, none⟩

/-- A complete event-sourced request. -/
def evFull : Event :=
  ⟨some "eventbridge", some "src", some "app.py", some "out", none⟩

/-- A request whose `prompt` key is present but empty. -/
def evEmptyPrompt : Event := ⟨none, none, none, none, some ""⟩

/-- A request with none of the recognized keys. -/
def evEmpty : Event := ⟨none, none, none, none, none⟩

/-- A short analysis text. -/
def shortTxt : String := "hello"

/-- An analysis text of 501 characters. -/
def longTxt : String := String.mk (List.replicate 501 'a')

/-! ### Properties of the string helpers -/

theorem splitOnChar_cons_eq (sep c : Char) (cs r : List Char)
    (rs : List (List Char)) (hs : splitOnChar sep cs = r :: rs) :
    splitOnChar sep (c :: cs) =
      if c = sep then [] :: r :: rs else (c :: r) :: rs := by
  simp only [splitOnChar, hs]

theorem splitOnChar_ne_nil (sep : Char) (l : List Char) :
    splitOnChar sep l ≠ [] := by
  induction l with
  | nil => simp [splitOnChar]
  | cons c cs ih =>
    cases h : splitOnChar sep cs with
    | nil => exact absurd h ih
    | cons r rs =>
      rw [splitOnChar_cons_eq sep c cs r rs h]
      split <;> simp

theorem splitOnChar_of_not_mem (sep : Char) (l : List Char)
    (h : sep ∉ l) : splitOnChar sep l = [l] := by
  induction l with
  | nil => simp [splitOnChar]
  | cons c cs ih =>
    simp only [List.mem_cons, not_or] at h
    rw [splitOnChar_cons_eq sep c cs cs [] (ih h.2)]
    rw [if_neg (fun hc => h.1 hc.symm)]

theorem two_le_splitOnChar_length (sep : Char) (l : List Char)
    (h : sep ∈ l) : 2 ≤ (splitOnChar sep l).length := by
  induction l with
  | nil => simp at h
  | cons c cs ih =>
    cases hs : splitOnChar sep cs with
    | nil => exact absurd hs (splitOnChar_ne_nil sep cs)
    | cons r rs =>
      rw [splitOnChar_cons_eq sep c cs r rs hs]
      by_cases hc : c = sep
      · simp [hc]
      · rw [if_neg hc]
        rcases List.mem_cons.mp h with h1 | h2
        · exact absurd h1.symm hc
        · have := ih h2
          rw [hs] at this
          simpa using this

theorem afterLastSep_of_not_mem (sep : Char) (l : List Char)
    (h : sep ∉ l) : afterLastSep sep l = l := by
  cases l with
  | nil => rfl
  | cons c cs =>
    simp only [List.mem_cons, not_or] at h
    simp only [afterLastSep]
    rw [if_neg h.2, if_neg (fun hc => h.1 hc.symm)]

/-- The last fragment Python's `split` returns is exactly the portion of
the string after the last separator. -/
theorem splitOnChar_getLastD (sep : Char) (l : List Char) :
    (splitOnChar sep l).getLastD [] = afterLastSep sep l := by
  induction l with
  | nil => rfl
  | cons c cs ih =>
    cases hs : splitOnChar sep cs with
    | nil => exact absurd hs (splitOnChar_ne_nil sep cs)
    | cons r rs =>
      rw [splitOnChar_cons_eq sep c cs r rs hs]
      simp only [afterLastSep]
      rw [hs] at ih
      by_cases hc : c = sep
      · rw [if_pos hc]
        by_cases hm : sep ∈ cs
        · rw [if_pos hm, List.getLastD_cons, ← ih, List.getLastD_cons]
        · rw [if_neg hm, if_pos hc]
          have := splitOnChar_of_not_mem sep cs hm
          rw [this] at hs
          cases hs
          simp
      · rw [if_neg hc]
        cases rs with
        | nil =>
          have hm : sep ∉ cs := by
            intro hmem
            have := two_le_splitOnChar_length sep cs hmem
            rw [hs] at this
            simp at this
          have hcs := splitOnChar_of_not_mem sep cs hm
          rw [hcs] at hs
          cases hs
          rw [if_neg hm, if_neg hc]
          simp
        | cons r' rs' =>
          have hm : sep ∈ cs := by
            by_contra hmem
            have := splitOnChar_of_not_mem sep cs hmem
            rw [this] at hs
            cases hs
          rw [if_pos hm, ← ih]
          simp [List.getLastD_cons]

/-! ### Branch characterizations of the embedded handlers -/

theorem handler_marker (ev : Event) (ctx : Option Ctx) (o : Oracles)
    (h : (ev.source == some "eventbridge") = true) :
    handler ev ctx o = handle_s3_event ev ctx o.startTime o := by
  simp only [handler, h, if_true]

theorem handler_prompt (ev : Event) (ctx : Option Ctx) (o : Oracles)
    (h1 : (ev.source == some "eventbridge") = false)
    (h2 : ev.prompt.isSome = true) :
    handler ev ctx o = handle_prompt_analysis ev ctx o.startTime o := by
  simp only [handler, h1, h2, Bool.false_eq_true, if_false, if_true]

theorem handler_default (ev : Event) (ctx : Option Ctx) (o : Oracles)
    (h1 : (ev.source == some "eventbridge") = false)
    (h2 : ev.prompt = none) :
    handler ev ctx o =
      ({ status := "success"
         message := "Code Analysis Strands Agent invoked"
         request_id := some (requestIdOf ctx)
         processing_time_seconds := some (round3 (o.endTime - o.startTime))
         version := some "1.0.0-strands" }, []) := by
  simp only [handler, h1, h2, Option.isSome_none, Bool.false_eq_true,
    if_false]

theorem prompt_ok (ev : Event) (ctx : Option Ctx) (st : ℚ) (o : Oracles)
    (txt : String) (ha : o.agentResult = .ok txt) :
    handle_prompt_analysis ev ctx st o =
      ({ status := "success"
         message := "Code analysis completed"
         request_id := some (requestIdOf ctx)
         analysis := some txt
         processing_time_seconds := some (round3 (o.endTime - st))
         input_prompt := some (ev.prompt.getD "") },
       [Action.agentCall (ev.prompt.getD "")]) := by
  simp only [handle_prompt_analysis, ha]

theorem prompt_err (ev : Event) (ctx : Option Ctx) (st : ℚ) (o : Oracles)
    (e : String) (ha : o.agentResult = .error e) :
    handle_prompt_analysis ev ctx st o =
      ({ status := "error"
         message := "Analysis failed: " ++ e
         request_id := some (requestIdOf ctx) },
       [Action.agentCall (ev.prompt.getD "")]) := by
  simp only [handle_prompt_analysis, ha]

theorem s3_invalid (ev : Event) (ctx : Option Ctx) (st : ℚ) (o : Oracles)
    (h : (falsy ev.bucket || falsy ev.key) = true) :
    handle_s3_event ev ctx st o =
      ({ status := "error"
         message := "Missing bucket name or object key in S3 event" },
       []) := by
  simp only [handle_s3_event, h, if_true]

theorem s3_fetch_err (ev : Event) (ctx : Option Ctx) (st : ℚ) (o : Oracles)
    (e : String) (hv : (falsy ev.bucket || falsy ev.key) = false)
    (hf : o.fetchResult = .error e) :
    handle_s3_event ev ctx st o =
      ({ status := "error"
         message := "Failed to read file from S3: " ++ e },
       [Action.fetch (ev.bucket.getD "") (ev.key.getD "")]) := by
  simp only [handle_s3_event, hv, hf, Bool.false_eq_true, if_false]

theorem s3_agent_err (ev : Event) (ctx : Option Ctx) (st : ℚ) (o : Oracles)
    (ct : String) (sz : Nat) (e : String)
    (hv : (falsy ev.bucket || falsy ev.key) = false)
    (hf : o.fetchResult = .ok (ct, sz))
    (ha : o.agentResult = .error e) :
    handle_s3_event ev ctx st o =
      ({ status := "error"
         message := "S3 analysis failed: " ++ e
         request_id := some (requestIdOf ctx) },
       [Action.fetch (ev.bucket.getD "") (ev.key.getD ""),
        Action.agentCall (buildAnalysisPrompt (fileTypeOf (ev.key.getD ""))
          (ev.key.getD "") sz ct)]) := by
  simp only [handle_s3_event, hv, hf, ha, Bool.false_eq_true, if_false]

theorem s3_success (ev : Event) (ctx : Option Ctx) (st : ℚ) (o : Oracles)
    (ct : String) (sz : Nat) (txt : String)
    (hv : (falsy ev.bucket || falsy ev.key) = false)
    (hf : o.fetchResult = .ok (ct, sz))
    (ha : o.agentResult = .ok txt) :
    handle_s3_event ev ctx st o =
      ({ status := "success"
         message := "S3 code analysis completed"
         request_id := some (requestIdOf ctx)
         input := some ⟨ev.bucket.getD "", ev.key.getD "", sz,
           fileTypeOf (ev.key.getD "")⟩
         output := some ⟨ev.outputBucket,
           if falsy ev.outputBucket then none
           else some ("analysis/" ++ pyReplaceChar '/' '_' (ev.key.getD "") ++
             "_" ++ strftimeYmdHms o.now ++ "_analysis.md"),
           txt.length⟩
         processing_time_seconds := some (round3 (o.endTime - st))
         analysis_preview := some (previewOf txt) },
       [Action.fetch (ev.bucket.getD "") (ev.key.getD ""),
        Action.agentCall (buildAnalysisPrompt (fileTypeOf (ev.key.getD ""))
          (ev.key.getD "") sz ct)] ++
       (if falsy ev.outputBucket then []
        else [Action.write (ev.outputBucket.getD "")
          ("analysis/" ++ pyReplaceChar '/' '_' (ev.key.getD "") ++ "_" ++
            strftimeYmdHms o.now ++ "_analysis.md")
          txt "text/markdown"
          [("source-bucket", ev.bucket.getD ""),
           ("source-key", ev.key.getD ""),
           ("analysis-timestamp", strftimeYmdHms o.now),
           ("file-type", fileTypeOf (ev.key.getD "")),
           ("request-id", requestIdOf ctx)]])) := by
  simp only [handle_s3_event, hv, hf, ha, Bool.false_eq_true, if_false]

/-! ### Claim theorems -/

/-- C3: for every event-sourced request in which `bucket` or `key` is
missing or empty, the dispatcher returns an error envelope and performs
zero object-store calls (the action trace is empty, so neither a fetch nor
a write is attempted). -/
theorem C3_validation_no_store (ev : Event) (ctx : Option Ctx) (o : Oracles)
    (hsrc : (ev.source == some "eventbridge") = true)
    (hmk : falsy ev.bucket = true ∨ falsy ev.key = true) :
    ((handler ev ctx o).1).status = "error" ∧ (handler ev ctx o).2 = [] := by
  have hv : (falsy ev.bucket || falsy ev.key) = true := by
    rcases hmk with h | h <;> simp [h]
  rw [handler_marker ev ctx o hsrc, s3_invalid ev ctx o.startTime o hv]
  exact ⟨rfl, rfl⟩

/-- Witness for C3 at a concrete event-sourced request missing `key`. -/
theorem C3_validation_no_store_witness :
    ((handler evMissingKey sampleCtx sampleOracle).1).status = "error" ∧
    (handler evMissingKey sampleCtx sampleOracle).2 = [] :=
  C3_validation_no_store evMissingKey sampleCtx sampleOracle (by decide)
    (Or.inr (by decide))

/-- C4: within one event-sourced invocation, if validation, the fetch, or
the AnalysisClient call fails, an error envelope is returned and no
output-object write appears in the trace — the write is strictly ordered
after a successful analysis. -/
theorem C4_no_write_on_failure (ev : Event) (ctx : Option Ctx) (st : ℚ)
    (o : Oracles)
    (h : (falsy ev.bucket || falsy ev.key) = true ∨
      isErr o.fetchResult = true ∨ isErr o.agentResult = true) :
    ((handle_s3_event ev ctx st o).1).status = "error" ∧
    ∀ a ∈ (handle_s3_event ev ctx st o).2, a.isWrite = false := by
  by_cases hv : (falsy ev.bucket || falsy ev.key) = true
  · rw [s3_invalid ev ctx st o hv]
    exact ⟨rfl, by simp⟩
  · have hv' : (falsy ev.bucket || falsy ev.key) = false := by simpa using hv
    cases hfr : o.fetchResult with
    | error e =>
      rw [s3_fetch_err ev ctx st o e hv' hfr]
      refine ⟨rfl, ?_⟩
      intro a ha
      simp only [List.mem_singleton] at ha
      simp [ha, Action.isWrite]
    | ok p =>
      obtain ⟨ct, sz⟩ := p
      cases hag : o.agentResult with
      | error e =>
        rw [s3_agent_err ev ctx st o ct sz e hv' hfr hag]
        refine ⟨rfl, ?_⟩
        intro a ha
        simp only [List.mem_cons, List.not_mem_nil, or_false] at ha
        rcases ha with ha | ha <;> simp [ha, Action.isWrite]
      | ok txt =>
        rcases h with h | h | h
        · exact absurd h hv
        · rw [hfr] at h
          simp [isErr] at h
        · rw [hag] at h
          simp [isErr] at h

/-- Witness for C4 at a concrete invocation whose agent call fails. -/
theorem C4_no_write_on_failure_witness :
    ((handle_s3_event evFull sampleCtx 0 oracleAgentFail).1).status =
      "error" ∧
    ∀ a ∈ (handle_s3_event evFull sampleCtx 0 oracleAgentFail).2,
      a.isWrite = false :=
  C4_no_write_on_failure evFull sampleCtx 0 oracleAgentFail
    (Or.inr (Or.inr (by decide)))

/-- C5: when validation, fetch and analysis succeed and an output bucket
was supplied, a failing object-store write leaves the envelope a success
envelope that still carries the full analysis length and the analysis
preview (best-effort persistence). -/
theorem C5_write_failure_still_success (ev : Event) (ctx : Option Ctx)
    (st : ℚ) (o : Oracles) (ct : String) (sz : Nat) (txt emsg : String)
    (hv : (falsy ev.bucket || falsy ev.key) = false)
    (_hob : falsy ev.outputBucket = false)
    (hf : o.fetchResult = .ok (ct, sz))
    (ha : o.agentResult = .ok txt)
    (_hw : o.writeResult = .error emsg) :
    ((handle_s3_event ev ctx st o).1).status = "success" ∧
    Option.map S3Output.analysis_length
      ((handle_s3_event ev ctx st o).1).output = some txt.length ∧
    ((handle_s3_event ev ctx st o).1).analysis_preview =
      some (previewOf txt) := by
  rw [s3_success ev ctx st o ct sz txt hv hf ha]
  exact ⟨rfl, rfl, rfl⟩

/-- Witness for C5 at a concrete run whose `put_object` fails. -/
theorem C5_write_failure_still_success_witness :
    ((handle_s3_event evFull sampleCtx 0 oracleWriteFail).1).status =
      "success" ∧
    Option.map S3Output.analysis_length
      ((handle_s3_event evFull sampleCtx 0 oracleWriteFail).1).output =
      some ("Looks fine." : String).length ∧
    Envelope.analysis_preview
      ((handle_s3_event evFull sampleCtx 0 oracleWriteFail).1) =
      some (previewOf "Looks fine.") :=
  C5_write_failure_still_success evFull sampleCtx 0 oracleWriteFail
    "print(1)" 9 "Looks fine." "denied" (by decide) (by decide) rfl rfl rfl

/-- C6: for every key string, the derived fileType equals the lowercased
portion of the key after the last `.` (the independent `afterLastSep`
description); if the key contains no `.`, it equals exactly `"unknown"`. -/
theorem C6_fileType_after_last_dot (key : String) :
    fileTypeOf key =
      if '.' ∈ key.data then
        pyLower (String.mk (afterLastSep '.' key.data))
      else "unknown" := by
  by_cases h : '.' ∈ key.data
  · have hc : hasChar '.' key = true := by simpa [hasChar] using h
    simp only [fileTypeOf, hc, if_true, if_pos h, splitOnChar_getLastD]
  · have hc : hasChar '.' key = false := by simpa [hasChar] using h
    simp only [fileTypeOf, hc, Bool.false_eq_true, if_false, if_neg h]

/-- C7: for every analysis text, the preview is the text itself when its
length is at most 500, and is the first 500 characters followed by the
three-character ellipsis marker — hence of length exactly 503 — when the
text is longer than 500 characters. -/
theorem C7_preview_truncation (t : String) :
    (t.length ≤ 500 → previewOf t = t) ∧
    (500 < t.length →
      (previewOf t).data = t.data.take 500 ++ ['.', '.', '.'] ∧
      (previewOf t).length = 503) := by
  constructor
  · intro h
    rw [previewOf, if_neg (by omega)]
  · intro h
    rw [previewOf, if_pos (by omega)]
    constructor
    · rw [String.data_append]
    · rw [String.length_append]
      have h1 : (String.mk (t.data.take 500)).length = 500 := by
        show (t.data.take 500).length = 500
        rw [List.length_take]
        have : 500 < t.data.length := h
        omega
      rw [h1]
      rfl

/-- Witness for C7: the preview of a short text is the text itself, and
the preview of a 501-character text has length 503. -/
theorem C7_preview_truncation_witness :
    previewOf shortTxt = shortTxt ∧ (previewOf longTxt).length = 503 :=
  ⟨(C7_preview_truncation shortTxt).1 (by decide),
   ((C7_preview_truncation longTxt).2 (by
      show 500 < (List.replicate 501 'a').length
      rw [List.length_replicate]
      norm_num)).2⟩

/-- C8: on every successful event-sourced analysis with an output bucket,
exactly one write is performed; its key is
`"analysis/" + key.replace("/", "_") + "_" + strftime("%Y%m%d_%H%M%S") +
"_analysis.md"` and its metadata is exactly the five pairs source-bucket,
source-key, analysis-timestamp, file-type and request-id with the
corresponding values. -/
theorem C8_output_key_and_metadata (ev : Event) (ctx : Option Ctx) (st : ℚ)
    (o : Oracles) (ct : String) (sz : Nat) (txt : String)
    (hv : (falsy ev.bucket || falsy ev.key) = false)
    (hob : falsy ev.outputBucket = false)
    (hf : o.fetchResult = .ok (ct, sz))
    (ha : o.agentResult = .ok txt) :
    List.filter Action.isWrite (handle_s3_event ev ctx st o).2 =
      [Action.write (ev.outputBucket.getD "")
        ("analysis/" ++ pyReplaceChar '/' '_' (ev.key.getD "") ++ "_" ++
          strftimeYmdHms o.now ++ "_analysis.md")
        txt "text/markdown"
        [("source-bucket", ev.bucket.getD ""),
         ("source-key", ev.key.getD ""),
         ("analysis-timestamp", strftimeYmdHms o.now),
         ("file-type", fileTypeOf (ev.key.getD "")),
         ("request-id", requestIdOf ctx)]] := by
  rw [s3_success ev ctx st o ct sz txt hv hf ha]
  simp [hob, List.filter, Action.isWrite]

/-- Witness for C8 at the concrete end-to-end scenario of the spec. -/
theorem C8_output_key_and_metadata_witness :
    List.filter Action.isWrite
      (handle_s3_event evFull sampleCtx 0 sampleOracle).2 =
      [Action.write "out" "analysis/app.py_20250102_030405_analysis.md"
        "Looks fine." "text/markdown"
        [("source-bucket", "src"), ("source-key", "app.py"),
         ("analysis-timestamp", "20250102_030405"), ("file-type", "py"),
         ("request-id", "req-1")]] := by
  have h := C8_output_key_and_metadata evFull sampleCtx 0 sampleOracle
    "print(1)" 9 "Looks fine." (by decide) (by decide) rfl rfl
  rw [h]
  decide

/-- C1 counterexample: on the event-sourced validation-failure path the
returned envelope does not carry the `requestId` field at all, refuting
the claim that every envelope on every path carries it. -/
theorem C1_requestId_counterexample :
    ((handler evMissingKey sampleCtx sampleOracle).1).request_id = none :=
  rfl

/-- C1 (amended): the dispatcher is total — every request and every
failure mode yields an envelope whose status is `"success"` or `"error"`
— and every envelope carries `requestId` except the event-sourced
validation-failure and fetch-failure error envelopes, which omit it. -/
theorem C1_envelope_requestId (ev : Event) (ctx : Option Ctx)
    (o : Oracles) :
    (((handler ev ctx o).1).status = "success" ∨
     ((handler ev ctx o).1).status = "error") ∧
    ((handler ev ctx o).1).request_id =
      (if (ev.source == some "eventbridge") &&
          (falsy ev.bucket || falsy ev.key || isErr o.fetchResult)
       then none else some (requestIdOf ctx)) := by
  by_cases hsrc : (ev.source == some "eventbridge") = true
  · rw [handler_marker ev ctx o hsrc, hsrc]
    by_cases hv : (falsy ev.bucket || falsy ev.key) = true
    · rw [s3_invalid ev ctx o.startTime o hv]
      rcases Bool.or_eq_true_iff.mp hv with h | h <;>
        simp [h, Or.inr rfl]
    · have hv' : (falsy ev.bucket || falsy ev.key) = false := by
        simpa using hv
      have hb : falsy ev.bucket = false := by
        rcases Bool.or_eq_false_iff.mp hv' with ⟨h1, _⟩
        exact h1
      have hk : falsy ev.key = false := by
        rcases Bool.or_eq_false_iff.mp hv' with ⟨_, h2⟩
        exact h2
      cases hfr : o.fetchResult with
      | error e =>
        rw [s3_fetch_err ev ctx o.startTime o e hv' hfr]
        simp [hb, hk, isErr, Or.inr rfl]
      | ok p =>
        obtain ⟨ct, sz⟩ := p
        cases hag : o.agentResult with
        | error e =>
          rw [s3_agent_err ev ctx o.startTime o ct sz e hv' hfr hag]
          simp [hb, hk, isErr, Or.inr rfl]
        | ok txt =>
          rw [s3_success ev ctx o.startTime o ct sz txt hv' hfr hag]
          simp [hb, hk, isErr, Or.inl rfl]
  · have hsrc' : (ev.source == some "eventbridge") = false := by
      simpa using hsrc
    cases hp : ev.prompt with
    | none =>
      rw [handler_default ev ctx o hsrc' hp]
      simp [hsrc', Or.inl rfl]
    | some p =>
      rw [handler_prompt ev ctx o hsrc' (by simp [hp])]
      cases hag : o.agentResult with
      | error e =>
        rw [prompt_err ev ctx o.startTime o e hag]
        simp [hsrc', Or.inr rfl]
      | ok txt =>
        rw [prompt_ok ev ctx o.startTime o txt hag]
        simp [hsrc', Or.inl rfl]

/-- C2 counterexample: a request whose `prompt` key is present but empty
lacks both the event-source marker and a non-empty prompt, yet it is
routed to the direct-prompt path, not to the static default envelope — the
returned envelope carries no version tag and a different message. -/
theorem C2_empty_prompt_counterexample :
    ((handler evEmptyPrompt sampleCtx sampleOracle).1).version = none ∧
    ((handler evEmptyPrompt sampleCtx sampleOracle).1).message ≠
      "Code Analysis Strands Agent invoked" := by
  constructor
  · rfl
  · decide

/-- C2 (amended): classification is in fixed priority order with first
match winning: the event-source marker (`source` equal to `"eventbridge"`)
takes the event-sourced path; otherwise a request carrying a `prompt`
field — even an empty one — takes the direct-prompt path; a request
lacking both the marker and the `prompt` field returns the static default
envelope with status `"success"` and the fixed version tag. -/
theorem C2_routing_priority (ev : Event) (ctx : Option Ctx) (o : Oracles) :
    ((ev.source == some "eventbridge") = true →
      handler ev ctx o = handle_s3_event ev ctx o.startTime o) ∧
    ((ev.source == some "eventbridge") = false → ev.prompt.isSome = true →
      handler ev ctx o = handle_prompt_analysis ev ctx o.startTime o) ∧
    ((ev.source == some "eventbridge") = false → ev.prompt = none →
      ((handler ev ctx o).1).status = "success" ∧
      ((handler ev ctx o).1).version = some "1.0.0-strands" ∧
      ((handler ev ctx o).1).message =
        "Code Analysis Strands Agent invoked") :=
  ⟨fun h => handler_marker ev ctx o h,
   fun h1 h2 => handler_prompt ev ctx o h1 h2,
   fun h1 h2 => by
     rw [handler_default ev ctx o h1 h2]
     exact ⟨rfl, rfl, rfl⟩⟩

/-- Witness for C2: each of the three routing branches at a concrete
request (marker present; empty prompt present; neither present). -/
theorem C2_routing_priority_witness :
    (handler evFull sampleCtx sampleOracle =
      handle_s3_event evFull sampleCtx sampleOracle.startTime
        sampleOracle) ∧
    (handler evEmptyPrompt sampleCtx sampleOracle =
      handle_prompt_analysis evEmptyPrompt sampleCtx
        sampleOracle.startTime sampleOracle) ∧
    (((handler evEmpty sampleCtx sampleOracle).1).status = "success" ∧
      ((handler evEmpty sampleCtx sampleOracle).1).version =
        some "1.0.0-strands" ∧
      ((handler evEmpty sampleCtx sampleOracle).1).message =
        "Code Analysis Strands Agent invoked") :=
  ⟨(C2_routing_priority evFull sampleCtx sampleOracle).1 (by decide),
   (C2_routing_priority evEmptyPrompt sampleCtx sampleOracle).2.1
     (by decide) (by decide),
   (C2_routing_priority evEmpty sampleCtx sampleOracle).2.2
     (by decide) rfl⟩

/-- C9 counterexample: the validation-failure error envelope carries no
`processingTimeSeconds` at all, refuting the claim that every envelope on
every error path includes the processing time. -/
theorem C9_processing_time_counterexample :
    Envelope.processing_time_seconds
      ((handler evMissingKey sampleCtx sampleOracle).1) = none :=
  rfl

/-- C9 (amended): an envelope carries `processingTimeSeconds` exactly when
its status is `"success"`, and then it equals the wall-clock time from
dispatch entry to envelope construction rounded to 3 decimal places; all
error envelopes omit the field. -/
theorem C9_processing_time (ev : Event) (ctx : Option Ctx) (o : Oracles) :
    ((handler ev ctx o).1).processing_time_seconds =
      (if ((handler ev ctx o).1).status = "success"
       then some (round3 (o.endTime - o.startTime)) else none) := by
  by_cases hsrc : (ev.source == some "eventbridge") = true
  · rw [handler_marker ev ctx o hsrc]
    by_cases hv : (falsy ev.bucket || falsy ev.key) = true
    · rw [s3_invalid ev ctx o.startTime o hv]
      simp
    · have hv' : (falsy ev.bucket || falsy ev.key) = false := by
        simpa using hv
      cases hfr : o.fetchResult with
      | error e =>
        rw [s3_fetch_err ev ctx o.startTime o e hv' hfr]
        simp
      | ok p =>
        obtain ⟨ct, sz⟩ := p
        cases hag : o.agentResult with
        | error e =>
          rw [s3_agent_err ev ctx o.startTime o ct sz e hv' hfr hag]
          simp
        | ok txt =>
          rw [s3_success ev ctx o.startTime o ct sz txt hv' hfr hag]
          simp
  · have hsrc' : (ev.source == some "eventbridge") = false := by
      simpa using hsrc
    cases hp : ev.prompt with
    | none =>
      rw [handler_default ev ctx o hsrc' hp]
      simp
    | some p =>
      rw [handler_prompt ev ctx o hsrc' (by simp [hp])]
      cases hag : o.agentResult with
      | error e =>
        rw [prompt_err ev ctx o.startTime o e hag]
        simp
      | ok txt =>
        rw [prompt_ok ev ctx o.startTime o txt hag]
        simp

/-- C10 counterexample: with an absent platform context, the event-sourced
validation-failure envelope contains no `requestId` field at all, so the
handler does not substitute `"unknown"` there. -/
theorem C10_null_context_counterexample :
    ((handler evMissingKey none sampleOracle).1).request_id = none :=
  rfl

/-- C10 (amended): with an absent (null) platform context every handler
still returns an envelope without failing; every envelope that carries a
`requestId` carries the literal `"unknown"`, and only the event-sourced
validation-failure and fetch-failure error envelopes omit the field. -/
theorem C10_null_context_unknown (ev : Event) (o : Oracles) :
    ((handler ev none o).1).request_id = some "unknown" ∨
    (((handler ev none o).1).request_id = none ∧
      ((handler ev none o).1).status = "error") := by
  by_cases hsrc : (ev.source == some "eventbridge") = true
  · rw [handler_marker ev none o hsrc]
    by_cases hv : (falsy ev.bucket || falsy ev.key) = true
    · rw [s3_invalid ev none o.startTime o hv]
      exact Or.inr ⟨rfl, rfl⟩
    · have hv' : (falsy ev.bucket || falsy ev.key) = false := by
        simpa using hv
      cases hfr : o.fetchResult with
      | error e =>
        rw [s3_fetch_err ev none o.startTime o e hv' hfr]
        exact Or.inr ⟨rfl, rfl⟩
      | ok p =>
        obtain ⟨ct, sz⟩ := p
        cases hag : o.agentResult with
        | error e =>
          rw [s3_agent_err ev none o.startTime o ct sz e hv' hfr hag]
          exact Or.inl rfl
        | ok txt =>
          rw [s3_success ev none o.startTime o ct sz txt hv' hfr hag]
          exact Or.inl rfl
  · have hsrc' : (ev.source == some "eventbridge") = false := by
      simpa using hsrc
    cases hp : ev.prompt with
    | none =>
      rw [handler_default ev none o hsrc' hp]
      exact Or.inl rfl
    | some p =>
      rw [handler_prompt ev none o hsrc' (by simp [hp])]
      cases hag : o.agentResult with
      | error e =>
        rw [prompt_err ev none o.startTime o e hag]
        exact Or.inl rfl
      | ok txt =>
        rw [prompt_ok ev none o.startTime o txt hag]
        exact Or.inl rfl
